import Mathlib

/-!
Shallow embedding of the Fabric AI MCP server bridge (src/index.ts) and
verification of its specification claims.

The external world is abstracted by two oracles:
* an `ExecEnv` mapping each shell command line to the behavior of the child
  process that running it would produce;
* an `FsEnv` giving the result of reading the patterns directory
  (`none` models a failed read, `some entries` a successful listing).

Each operation returns its user-visible text together with the trace of
external process spawns it performed, so that "no process is spawned" and
"timeout budget" claims are expressible.
-/

namespace FabricMCP

/-- Behavior of one child process. `exits t code stdout stderr errMsg` means the
process terminates on its own at time `t` (ms after spawn) with the given exit
code and captured streams; `errMsg` is the message of the error object the exec
callback would receive for a non-zero exit (for example node's
"Command failed: ..."). `hangs respondsToKill errMsg` means the process never
terminates on its own; `respondsToKill` says whether a SIGTERM kills it. -/
inductive ChildBehavior where
  | exits (t : Nat) (exitCode : Nat) (stdout stderr errMsg : String)
  | hangs (respondsToKill : Bool) (errMsg : String)
deriving DecidableEq

/-- Oracle mapping a command line to the behavior of its child process. -/
def ExecEnv : Type := String → ChildBehavior

/-- One directory entry as returned by readdir with file types. -/
structure DirEntry where
  name : String
  isDirectory : Bool
deriving DecidableEq

/-- Oracle for reading the patterns directory: `none` is a read failure. -/
def FsEnv : Type := Option (List DirEntry)

/-- Record of one external process spawn: the command line, the timeout (ms)
and the maxBuffer (bytes) passed to the spawn primitive. -/
structure SpawnReq where
  command : String
  timeoutMs : Nat
  maxBuffer : Nat
deriving DecidableEq

instance {ε α : Type} [DecidableEq ε] [DecidableEq α] : DecidableEq (Except ε α) := fun x y =>
  match x, y with
  | Except.ok a, Except.ok b =>
    if h : a = b then isTrue (by rw [h])
    else isFalse (by intro hc; cases hc; exact h rfl)
  | Except.ok _, Except.error _ => isFalse (by intro hc; cases hc)
  | Except.error _, Except.ok _ => isFalse (by intro hc; cases hc)
  | Except.error a, Except.error b =>
    if h : a = b then isTrue (by rw [h])
    else isFalse (by intro hc; cases hc; exact h rfl)

/-- The settled outcome of `execWithTimeout` (src/index.ts lines 66-92):
when the promise settles, which result it carries, and whether the safety
timer is still armed (dangling) after settlement. -/
structure ExecSettled where
  settleTime : Nat
  result : Except String (String × String)
  timerDangling : Bool
deriving DecidableEq

/-- JS `String.prototype.trim` on the characters of the string
(structural model; the source applies it to required argument fields). -/
def jsTrim (s : String) : String :=
  String.mk (((s.data.dropWhile (fun c => c.isWhitespace)).reverse.dropWhile
    (fun c => c.isWhitespace)).reverse)

/-- JS `String.prototype.toLowerCase` (per-character lowering). -/
def jsToLower (s : String) : String :=
  String.mk (s.data.map Char.toLower)

/-- Does `needle` start `haystack`? Helper for substring containment. -/
def charsStartWith : List Char → List Char → Bool
  | [], _ => true
  | _ :: _, [] => false
  | a :: as, b :: bs => a == b && charsStartWith as bs

/-- Does `needle` occur contiguously inside `haystack`? -/
def charsContain (needle : List Char) : List Char → Bool
  | [] => charsStartWith needle []
  | c :: rest => charsStartWith needle (c :: rest) || charsContain needle rest

/-- JS `s.includes(t)`: `t` occurs as a substring of `s`. -/
def strIncludes (s t : String) : Bool :=
  charsContain t.data s.data

/-- JS `s.split("\n")` (structural model): splits at every newline,
keeping empty segments. -/
def splitOnNewlineAux : List Char → List Char → List String
  | [], acc => [String.mk acc.reverse]
  | c :: rest, acc =>
    if c = '\n' then String.mk acc.reverse :: splitOnNewlineAux rest []
    else splitOnNewlineAux rest (c :: acc)

/-- JS `s.split("\n")` on a whole string. -/
def splitOnNewline (s : String) : List String :=
  splitOnNewlineAux s.data []

/-- JS `arr.join(sep)`. -/
def joinWith (sep : String) : List String → String
  | [] => ""
  | [x] => x
  | x :: y :: xs => x ++ sep ++ joinWith sep (y :: xs)

/-- Lower hexadecimal digit for JSON escaping. -/
def hexDigit (n : Nat) : Char :=
  if n < 10 then Char.ofNat (48 + n) else Char.ofNat (87 + n % 16)

/-- Four-digit lower hexadecimal rendering for JSON \u escapes. -/
def hex4 (n : Nat) : String :=
  String.mk [hexDigit (n / 4096 % 16), hexDigit (n / 256 % 16),
    hexDigit (n / 16 % 16), hexDigit (n % 16)]

/-- JSON escaping of a single character, following JSON.stringify. -/
def jsonEscapeChar (c : Char) : String :=
  if c = '"' then "\\\""
  else if c = '\\' then "\\\\"
  else if c = '\n' then "\\n"
  else if c = '\r' then "\\r"
  else if c = '\t' then "\\t"
  else if c.toNat = 8 then "\\b"
  else if c.toNat = 12 then "\\f"
  else if c.toNat < 32 then "\\u" ++ hex4 c.toNat
  else String.mk [c]

/-- JS `JSON.stringify` applied to a string value (src/index.ts line 179). -/
def jsonStringify (s : String) : String :=
  "\"" ++ String.join (s.data.map jsonEscapeChar) ++ "\""

/-- formatError (src/index.ts lines 34-39): user-facing failure text. -/
def formatError (msg : String) : String :=
  "❌ Error: " ++ msg

/-- validateRequired (src/index.ts lines 44-49): fails when the value is
absent, empty or whitespace-only, otherwise yields the trimmed value. -/
def validateRequired (value : String) (name : String) : Except String String :=
  if jsTrim value = "" then Except.error (name ++ " is required")
  else Except.ok (jsTrim value)

/-- The timeout message produced by both rejection sites of execWithTimeout
(src/index.ts lines 75 and 87). -/
def timeoutMessage (timeoutMs : Nat) : String :=
  "Command timed out after " ++ toString timeoutMs ++ "ms"

/-- execWithTimeout (src/index.ts lines 66-92) as a discrete-event model.
The exec primitive sends SIGTERM at `timeoutMs` if the child is still
running (callback then sees error.killed, rejecting with the timeout
message, lines 73-76); an independent safety timer armed for
`timeoutMs + 1000` (lines 85-88) kills and rejects if the child ignored the
first signal; the exit handler (line 90) clears the safety timer whenever
the child exits, and a fired timer is no longer armed, so in every branch
no timer remains armed (dangling) once the promise settles. -/
def execWithTimeout (b : ChildBehavior) (timeoutMs : Nat) : ExecSettled :=
  match b with
  | ChildBehavior.exits t code stdout stderr errMsg =>
    if t ≤ timeoutMs then
      { settleTime := t
        result := if code = 0 then Except.ok (stdout, stderr)
                  else Except.error errMsg
        timerDangling := false }
    else
      { settleTime := timeoutMs
        result := Except.error (timeoutMessage timeoutMs)
        timerDangling := false }
  | ChildBehavior.hangs respondsToKill _ =>
    if respondsToKill then
      { settleTime := timeoutMs
        result := Except.error (timeoutMessage timeoutMs)
        timerDangling := false }
    else
      { settleTime := timeoutMs + 1000
        result := Except.error (timeoutMessage timeoutMs)
        timerDangling := false }

/-- promisify(exec) with a timeout option, as used directly (without the
safety timer and without the bridge's own timeout message) by
getPatternDetails (src/index.ts lines 255-260): the primitive kills the
child after `timeoutMs` and the callback receives the primitive's own
error, whose message is node's, never "Command timed out after Xms". -/
def execAsyncTimed (b : ChildBehavior) (timeoutMs : Nat) :
    Except String (String × String) :=
  match b with
  | ChildBehavior.exits t code stdout stderr errMsg =>
    if t ≤ timeoutMs then
      if code = 0 then Except.ok (stdout, stderr) else Except.error errMsg
    else Except.error errMsg
  | ChildBehavior.hangs _ errMsg => Except.error errMsg

/-- Does the child outlive the given timeout? -/
def runsLongerThan (b : ChildBehavior) (timeoutMs : Nat) : Prop :=
  match b with
  | ChildBehavior.exits t _ _ _ _ => timeoutMs < t
  | ChildBehavior.hangs _ _ => True

/-- listPatternsFromFileSystem (src/index.ts lines 112-124): read the
patterns directory, keep only subdirectory entries, sort their names
(JS `Array.prototype.sort`, lexicographic); any read failure is caught and
yields the empty list. -/
def listPatternsFromFileSystem (fsEnv : FsEnv) : List String :=
  match fsEnv with
  | none => []
  | some entries =>
    List.insertionSort (fun x y : String => x ≤ y)
      ((entries.filter (fun e => e.isDirectory)).map (fun e => e.name))

/-- The line filter of the CLI fallback (src/index.ts line 213):
`.filter((p) => p.trim())` keeps lines that are not blank. -/
def keepLine (p : String) : Bool :=
  jsTrim p != ""

/-- The search filter of listPatterns (src/index.ts lines 214 and 230-232):
keep everything when the search term is empty, otherwise require
case-insensitive substring containment. -/
def searchPred (search p : String) : Bool :=
  search == "" || strIncludes (jsToLower p) (jsToLower search)

/-- The CLI fallback command of listPatterns (src/index.ts line 210). -/
def cliListCommand : String := "fabric-ai --listpatterns"

/-- The fixed informational text listModels returns when the CLI fails
(src/index.ts lines 141-153). -/
def modelsSetupMessage : String :=
  "ℹ️ Models are configured via the Fabric CLI setup.\n\nTo configure models:\n1. Run: fabric-ai --setup\n2. Add your API keys for supported providers (OpenAI, Anthropic, etc.)\n\nCommon model names:\n- gpt-4\n- gpt-4-turbo\n- claude-3-opus\n- claude-3-sonnet\n\nNote: The actual available models depend on your Fabric configuration."

/-- listModels (src/index.ts lines 129-158): try the CLI with a 5000ms
budget; on success return the model listing, on any CLI failure return the
fixed setup-instructions message. Neither path raises. -/
def listModels (env : ExecEnv) : String × List SpawnReq :=
  match (execWithTimeout (env "fabric-ai --listmodels") 5000).result with
  | Except.ok (stdout, _) =>
    ("📋 Available Models:\n\n" ++ stdout,
     [⟨"fabric-ai --listmodels", 5000, 1048576⟩])
  | Except.error _ =>
    (modelsSetupMessage, [⟨"fabric-ai --listmodels", 5000, 1048576⟩])

/-- The command line built by executePattern (src/index.ts lines 179-182)
from the already-validated input and pattern plus the raw model field. -/
def executePatternCommand (validInput validPattern model : String) : String :=
  "echo " ++ jsonStringify validInput ++ " | fabric-ai --pattern " ++
    validPattern ++ (if model != "" then " --model " ++ model else "")

/-- executePattern (src/index.ts lines 166-195): validate pattern_name then
input_text, build the command, run it with a 60000ms timeout and a 5MiB
buffer; non-empty stderr on success is only logged (line 187) and never
changes the result; every raised failure is caught and rendered through
formatError. -/
def executePattern (env : ExecEnv) (inputText patternName model : String) :
    String × List SpawnReq :=
  match validateRequired patternName "pattern_name" with
  | Except.error e => (formatError e, [])
  | Except.ok validPattern =>
    match validateRequired inputText "input_text" with
    | Except.error e => (formatError e, [])
    | Except.ok validInput =>
      let command := executePatternCommand validInput validPattern model
      match (execWithTimeout (env command) 60000).result with
      | Except.ok (stdout, _) =>
        ("✅ Pattern Result:\n\n" ++ stdout, [⟨command, 60000, 5242880⟩])
      | Except.error e => (formatError e, [⟨command, 60000, 5242880⟩])

/-- listPatterns (src/index.ts lines 200-243): read the filesystem source
first; when it yields zero entries invoke the CLI fallback once with a
5000ms budget, split its stdout on newlines, drop blank lines and apply the
search filter; report empty results distinctly depending on the search
term; a fallback failure yields the fixed not-configured message. When the
filesystem yields entries, only the search filter is applied to them. -/
def listPatterns (env : ExecEnv) (fsEnv : FsEnv) (search : String) :
    String × List SpawnReq :=
  let patterns := listPatternsFromFileSystem fsEnv
  if patterns.length = 0 then
    match (execWithTimeout (env cliListCommand) 5000).result with
    | Except.ok (stdout, _) =>
      let cliPatterns :=
        ((splitOnNewline stdout).filter keepLine).filter (searchPred search)
      if cliPatterns.length = 0 then
        (if search == "" then "❌ No patterns available"
         else "❌ No patterns found matching: " ++ search,
         [⟨cliListCommand, 5000, 1048576⟩])
      else
        ("📋 Available Patterns (" ++ toString cliPatterns.length ++
           "):\n\n" ++ joinWith "\n" cliPatterns,
         [⟨cliListCommand, 5000, 1048576⟩])
    | Except.error _ =>
      ("❌ No patterns available. Fabric may not be properly configured.",
       [⟨cliListCommand, 5000, 1048576⟩])
  else
    let filtered := patterns.filter (searchPred search)
    if filtered.length = 0 then
      ("❌ No patterns found matching: " ++ search, [])
    else
      ("📋 Available Patterns (" ++ toString filtered.length ++ "):\n\n" ++
        joinWith "\n" filtered, [])

/-- The newline-split, blank-discarded lines of the CLI fallback output
(src/index.ts lines 210-213), or the empty list when the CLI call fails. -/
def cliLines (env : ExecEnv) : List String :=
  match (execWithTimeout (env cliListCommand) 5000).result with
  | Except.ok (stdout, _) => (splitOnNewline stdout).filter keepLine
  | Except.error _ => []

/-- One resolution attempt of the pattern catalog, before search filtering:
the identifiers the code goes on to filter, together with a flag telling
which source produced them (`true` = filesystem, `false` = CLI fallback).
Mirrors the branch structure of listPatterns (src/index.ts lines 205-232). -/
def resolveAttempt (env : ExecEnv) (fsEnv : FsEnv) : List String × Bool :=
  let patterns := listPatternsFromFileSystem fsEnv
  if patterns.length = 0 then (cliLines env, false) else (patterns, true)

/-- The search-filtered identifiers of one resolution attempt; the claim
theorems relate this list to the text listPatterns actually returns. -/
def filteredPatterns (env : ExecEnv) (fsEnv : FsEnv) (search : String) :
    List String :=
  (resolveAttempt env fsEnv).1.filter (searchPred search)

/-- The command line built by getPatternDetails (src/index.ts line 256). -/
def getPatternDetailsCommand (validPattern : String) : String :=
  "fabric-ai --pattern " ++ validPattern ++ " --help || echo \"Pattern: " ++
    validPattern ++ "\""

/-- getPatternDetails (src/index.ts lines 248-271): validate the pattern
name, then run the help command through bare promisify(exec) with a 5000ms
timeout (no safety timer, no bridge timeout message); with stderr non-empty
and stdout empty report no details, otherwise show stdout or a fixed
placeholder; any raised failure is caught and rendered via formatError. -/
def getPatternDetails (env : ExecEnv) (patternName : String) :
    String × List SpawnReq :=
  match validateRequired patternName "pattern_name" with
  | Except.error e => (formatError e, [])
  | Except.ok validPattern =>
    let command := getPatternDetailsCommand validPattern
    match execAsyncTimed (env command) 5000 with
    | Except.ok (stdout, stderr) =>
      if stderr != "" && stdout == "" then
        ("📄 Pattern: " ++ validPattern ++
           "\n\nNo additional details available. Use execute_pattern to run this pattern.",
         [⟨command, 5000, 1048576⟩])
      else
        ("📄 Pattern Details: " ++ validPattern ++ "\n\n" ++
           (if stdout == "" then "No description available" else stdout),
         [⟨command, 5000, 1048576⟩])
    | Except.error e => (formatError e, [⟨command, 5000, 1048576⟩])

/-- The command line built by processUrl (src/index.ts lines 288-291). -/
def processUrlCommand (validUrl validPattern model : String) : String :=
  "fabric-ai -u " ++ jsonStringify validUrl ++ " --pattern " ++ validPattern ++
    (if model != "" then " --model " ++ model else "")

/-- processUrl (src/index.ts lines 276-304): validate url then
pattern_name, run with a 120000ms timeout and a 5MiB buffer; stderr on
success is only logged; failures render through formatError. -/
def processUrl (env : ExecEnv) (url patternName model : String) :
    String × List SpawnReq :=
  match validateRequired url "url" with
  | Except.error e => (formatError e, [])
  | Except.ok validUrl =>
    match validateRequired patternName "pattern_name" with
    | Except.error e => (formatError e, [])
    | Except.ok validPattern =>
      let command := processUrlCommand validUrl validPattern model
      match (execWithTimeout (env command) 120000).result with
      | Except.ok (stdout, _) =>
        ("✅ URL Processing Result:\n\n" ++ stdout,
         [⟨command, 120000, 5242880⟩])
      | Except.error e => (formatError e, [⟨command, 120000, 5242880⟩])

/-- The command line built by processYoutube (src/index.ts lines 321-324). -/
def processYoutubeCommand (validUrl validPattern model : String) : String :=
  "fabric-ai -y " ++ jsonStringify validUrl ++ " --pattern " ++ validPattern ++
    (if model != "" then " --model " ++ model else "")

/-- processYoutube (src/index.ts lines 309-337): validate youtube_url then
pattern_name, run with a 180000ms timeout and a 5MiB buffer; stderr on
success is only logged; failures render through formatError. -/
def processYoutube (env : ExecEnv) (youtubeUrl patternName model : String) :
    String × List SpawnReq :=
  match validateRequired youtubeUrl "youtube_url" with
  | Except.error e => (formatError e, [])
  | Except.ok validUrl =>
    match validateRequired patternName "pattern_name" with
    | Except.error e => (formatError e, [])
    | Except.ok validPattern =>
      let command := processYoutubeCommand validUrl validPattern model
      match (execWithTimeout (env command) 180000).result with
      | Except.ok (stdout, _) =>
        ("✅ YouTube Processing Result:\n\n" ++ stdout,
         [⟨command, 180000, 5242880⟩])
      | Except.error e => (formatError e, [⟨command, 180000, 5242880⟩])

/-- updatePatterns (src/index.ts lines 342-357): run the update command
with a 60000ms timeout (default 1MiB buffer); stderr on success is only
logged; failures render through formatError. -/
def updatePatterns (env : ExecEnv) : String × List SpawnReq :=
  match (execWithTimeout (env "fabric-ai --update") 60000).result with
  | Except.ok (stdout, _) =>
    ("✅ Patterns Updated:\n\n" ++ stdout,
     [⟨"fabric-ai --update", 60000, 1048576⟩])
  | Except.error e =>
    (formatError e, [⟨"fabric-ai --update", 60000, 1048576⟩])

/-- The argument mapping of one tool invocation; absent fields are `none`
and the handler coerces them to the empty string (src/index.ts lines
507-561). Field order: input_text, pattern_name, model, search, url,
youtube_url. -/
structure ToolArgs where
  input_text : Option String
  pattern_name : Option String
  model : Option String
  search : Option String
  url : Option String
  youtube_url : Option String
deriving DecidableEq

/-- The `(args?.x as string) || ""` coercion of the handler. -/
def orEmpty (o : Option String) : String :=
  o.getD ""

/-- The response the CallToolRequestSchema handler hands back to the host:
the text payload, the error flag (absent means false in the source, modeled
as `false`), and the trace of spawns performed while producing it. -/
structure DispatchResult where
  text : String
  isError : Bool
  spawns : List SpawnReq
deriving DecidableEq

/-- The fixed set of seven operation names (src/index.ts lines 505-595). -/
def knownToolNames : List String :=
  ["execute_pattern", "list_patterns", "get_pattern_details", "process_url",
   "process_youtube", "update_patterns", "list_models"]

/-- The CallToolRequestSchema handler (src/index.ts lines 501-609): route
the tool name to its operation; operations catch their own failures and
return plain text, so the handler wraps them without an error flag; the
only exception reaching the handler's catch is the `Unknown tool` throw of
the default branch (line 595), converted to a formatError text with
isError = true (lines 597-608). -/
def dispatch (env : ExecEnv) (fsEnv : FsEnv) (name : String)
    (args : ToolArgs) : DispatchResult :=
  if name = "execute_pattern" then
    let r := executePattern env (orEmpty args.input_text)
      (orEmpty args.pattern_name) (orEmpty args.model)
    ⟨r.1, false, r.2⟩
  else if name = "list_patterns" then
    let r := listPatterns env fsEnv (orEmpty args.search)
    ⟨r.1, false, r.2⟩
  else if name = "get_pattern_details" then
    let r := getPatternDetails env (orEmpty args.pattern_name)
    ⟨r.1, false, r.2⟩
  else if name = "process_url" then
    let r := processUrl env (orEmpty args.url) (orEmpty args.pattern_name)
      (orEmpty args.model)
    ⟨r.1, false, r.2⟩
  else if name = "process_youtube" then
    let r := processYoutube env (orEmpty args.youtube_url)
      (orEmpty args.pattern_name) (orEmpty args.model)
    ⟨r.1, false, r.2⟩
  else if name = "update_patterns" then
    let r := updatePatterns env
    ⟨r.1, false, r.2⟩
  else if name = "list_models" then
    let r := listModels env
    ⟨r.1, false, r.2⟩
  else
    ⟨formatError ("Unknown tool: " ++ name), true, []⟩

/-! ### Shared helper lemmas and concrete sample environments -/

/-- An environment whose child always exits immediately with status 0. -/
def okEnv (stdout stderr : String) : ExecEnv :=
  fun _ => ChildBehavior.exits 0 0 stdout stderr ""

/-- An environment whose child hangs but responds to SIGTERM, so every
spawn fails by timeout. -/
def failEnv : ExecEnv :=
  fun _ => ChildBehavior.hangs true "spawn failure"

/-- A tool invocation with every argument field absent. -/
def noArgs : ToolArgs := ⟨none, none, none, none, none, none⟩

/-- The filesystem source always yields a sorted list. -/
theorem listPatternsFromFileSystem_sorted (fsEnv : FsEnv) :
    List.Sorted (fun x y : String => x ≤ y)
      (listPatternsFromFileSystem fsEnv) := by
  cases fsEnv with
  | none => simp [listPatternsFromFileSystem]
  | some entries => exact List.sorted_insertionSort _ _

/-- Whenever the child outlives the timeout, execWithTimeout rejects with
the bridge's timeout message. -/
theorem execWithTimeout_long_result (b : ChildBehavior) (timeoutMs : Nat)
    (h : runsLongerThan b timeoutMs) :
    (execWithTimeout b timeoutMs).result =
      Except.error (timeoutMessage timeoutMs) := by
  cases b with
  | exits t code stdout stderr errMsg =>
    have ht : ¬ t ≤ timeoutMs := Nat.not_le.mpr h
    simp [execWithTimeout, ht]
  | hangs r m => cases r <;> simp [execWithTimeout]

/-! ### Claim theorems -/

/-- C10: the primary filesystem pattern source keeps exactly the
subdirectory names (non-directories excluded), returns them sorted, and a
filesystem read failure yields the empty list rather than an error. -/
theorem filesystem_source_dirs_sorted :
    (∀ entries : List DirEntry,
      List.Sorted (fun x y : String => x ≤ y)
        (listPatternsFromFileSystem (some entries)) ∧
      (∀ x : String, x ∈ listPatternsFromFileSystem (some entries) ↔
        ∃ e, e ∈ entries ∧ e.isDirectory = true ∧ e.name = x)) ∧
    listPatternsFromFileSystem none = [] := by
  refine ⟨fun entries => ⟨listPatternsFromFileSystem_sorted (some entries),
    fun x => ?_⟩, rfl⟩
  show x ∈ List.insertionSort _ _ ↔ _
  rw [(List.perm_insertionSort _ _).mem_iff]
  simp only [List.mem_map, List.mem_filter]
  constructor
  · rintro ⟨e, ⟨he, hd⟩, hn⟩
    exact ⟨e, he, hd, hn⟩
  · rintro ⟨e, he, hd, hn⟩
    exact ⟨e, ⟨he, hd⟩, hn⟩

/-- C10 witness: the concrete listing with two directories and one file. -/
theorem filesystem_source_dirs_sorted_witness :
    List.Sorted (fun x y : String => x ≤ y)
      (listPatternsFromFileSystem
        (some [⟨"b", true⟩, ⟨"a", true⟩, ⟨"f", false⟩])) ∧
    ("a" ∈ listPatternsFromFileSystem
        (some [⟨"b", true⟩, ⟨"a", true⟩, ⟨"f", false⟩]) ↔
      ∃ e, e ∈ [(⟨"b", true⟩ : DirEntry), ⟨"a", true⟩, ⟨"f", false⟩] ∧
        e.isDirectory = true ∧ e.name = "a") :=
  ⟨(filesystem_source_dirs_sorted.1 _).1,
   (filesystem_source_dirs_sorted.1 _).2 "a"⟩

/-- C9: list_models never produces an error outcome: the dispatched call
always has isError = false, the text is either the CLI listing or the
fixed setup-instructions message, and every CLI failure yields exactly the
setup-instructions message. -/
theorem listModels_never_errors (env : ExecEnv) (fsEnv : FsEnv)
    (args : ToolArgs) :
    (dispatch env fsEnv "list_models" args).isError = false ∧
    ((∃ out, (listModels env).1 = "📋 Available Models:\n\n" ++ out) ∨
      (listModels env).1 = modelsSetupMessage) ∧
    (∀ e, (execWithTimeout (env "fabric-ai --listmodels") 5000).result =
        Except.error e → (listModels env).1 = modelsSetupMessage) := by
  refine ⟨rfl, ?_, ?_⟩
  · rcases h : (execWithTimeout (env "fabric-ai --listmodels") 5000).result
      with e | ⟨out, err⟩
    · exact Or.inr (by simp [listModels, h])
    · exact Or.inl ⟨out, by simp [listModels, h]⟩
  · intro e he
    simp [listModels, he]

/-- C9 witness: with a hanging CLI the call is non-error and returns the
setup instructions. -/
theorem listModels_never_errors_witness :
    (dispatch failEnv none "list_models" noArgs).isError = false ∧
    (listModels failEnv).1 = modelsSetupMessage :=
  ⟨(listModels_never_errors failEnv none noArgs).1,
   (listModels_never_errors failEnv none noArgs).2.2
     (timeoutMessage 5000) (by decide)⟩

/-- C7: dispatch of any name outside the fixed set of seven operations
yields isError = true with a text identifying the unknown name, and every
known-name dispatch returns a well-formed non-error response (operations
catch their own failures, so only the default branch's throw reaches the
handler's catch). -/
theorem dispatch_unknown_tool (env : ExecEnv) (fsEnv : FsEnv)
    (args : ToolArgs) (name : String) :
    (name ∉ knownToolNames →
      dispatch env fsEnv name args =
        ⟨formatError ("Unknown tool: " ++ name), true, []⟩) ∧
    (name ∈ knownToolNames →
      (dispatch env fsEnv name args).isError = false) := by
  constructor
  · intro h
    simp only [knownToolNames, List.mem_cons, List.not_mem_nil, or_false,
      not_or] at h
    obtain ⟨h1, h2, h3, h4, h5, h6, h7⟩ := h
    simp [dispatch, h1, h2, h3, h4, h5, h6, h7]
  · intro h
    fin_cases h <;> rfl

/-- C7 witness: a concrete unknown name errors with the identifying text
and a concrete known name does not error. -/
theorem dispatch_unknown_tool_witness :
    dispatch (okEnv "" "") none "frobnicate" noArgs =
      ⟨formatError ("Unknown tool: " ++ "frobnicate"), true, []⟩ ∧
    (dispatch (okEnv "" "") none "list_models" noArgs).isError = false :=
  ⟨(dispatch_unknown_tool (okEnv "" "") none noArgs "frobnicate").1
     (by decide),
   (dispatch_unknown_tool (okEnv "" "") none noArgs "list_models").2
     (by decide)⟩

/-- C6: every spawn an operation performs carries its fixed policy timeout:
60000ms for pattern execution, 120000ms for URL processing, 180000ms for
YouTube processing, 60000ms for pattern update, and a value between 5000
and 10000ms for the metadata lookups (listing fallback, details, models);
no operation accepts a caller-supplied timeout (none appears in ToolArgs),
and update/execute spawn traces are non-empty on valid input, so the
bounds are not vacuous. -/
theorem timeout_budgets_fixed (env : ExecEnv) (fsEnv : FsEnv)
    (i p m u y s : String) :
    ((executePattern env i p m).2.all
       (fun r => r.timeoutMs == 60000)) = true ∧
    ((processUrl env u p m).2.all
       (fun r => r.timeoutMs == 120000)) = true ∧
    ((processYoutube env y p m).2.all
       (fun r => r.timeoutMs == 180000)) = true ∧
    ((updatePatterns env).2.all
       (fun r => r.timeoutMs == 60000)) = true ∧
    ((listPatterns env fsEnv s).2.all
       (fun r => decide (5000 ≤ r.timeoutMs) &&
         decide (r.timeoutMs ≤ 10000))) = true ∧
    ((getPatternDetails env p).2.all
       (fun r => decide (5000 ≤ r.timeoutMs) &&
         decide (r.timeoutMs ≤ 10000))) = true ∧
    ((listModels env).2.all
       (fun r => decide (5000 ≤ r.timeoutMs) &&
         decide (r.timeoutMs ≤ 10000))) = true ∧
    (updatePatterns env).2 ≠ [] ∧
    (executePattern env "text" "name" "").2.length = 1 := by
  refine ⟨?_, ?_, ?_, ?_, ?_, ?_, ?_, ?_, ?_⟩
  · dsimp only [executePattern]
    repeat' split
    all_goals rfl
  · dsimp only [processUrl]
    repeat' split
    all_goals rfl
  · dsimp only [processYoutube]
    repeat' split
    all_goals rfl
  · dsimp only [updatePatterns]
    repeat' split
    all_goals rfl
  · dsimp only [listPatterns]
    repeat' split
    all_goals rfl
  · dsimp only [getPatternDetails]
    repeat' split
    all_goals rfl
  · dsimp only [listModels]
    repeat' split
    all_goals rfl
  · dsimp only [updatePatterns]
    repeat' split
    all_goals simp
  · have h1 : validateRequired "name" "pattern_name" = Except.ok "name" := by
      decide
    have h2 : validateRequired "text" "input_text" = Except.ok "text" := by
      decide
    dsimp only [executePattern, h1, h2]
    rw [h1, h2]
    dsimp only
    split <;> rfl

/-- C6 witness: the execute-pattern spawn at a concrete environment uses
the 60000ms budget. -/
theorem timeout_budgets_fixed_witness :
    ((executePattern (okEnv "" "") "text" "name" "").2.all
       (fun r => r.timeoutMs == 60000)) = true ∧
    (executePattern (okEnv "" "") "text" "name" "").2.length = 1 :=
  ⟨(timeout_budgets_fixed (okEnv "" "") none "text" "name" "" "" "" "").1,
   (timeout_budgets_fixed (okEnv "" "") none "text" "name" "" "" "" "").2.2.2.2.2.2.2.2⟩

/-- C1 counterexample: dispatching execute_pattern with a whitespace-only
pattern_name yields the "pattern_name is required" failure text and spawns
no process, but the response's error flag is false — not true as the claim
states — because the operation catches its own validation error and the
handler wraps the returned text without an error flag. -/
theorem blank_field_isError_cex :
    (dispatch (okEnv "" "") none "execute_pattern"
      ⟨some "hello", some "   ", none, none, none, none⟩).isError = false ∧
    (dispatch (okEnv "" "") none "execute_pattern"
      ⟨some "hello", some "   ", none, none, none, none⟩).text =
        "❌ Error: pattern_name is required" ∧
    (dispatch (okEnv "" "") none "execute_pattern"
      ⟨some "hello", some "   ", none, none, none, none⟩).spawns = [] :=
  ⟨rfl, by decide, by decide⟩

/-- C1 amended: for every operation with required fields
(execute_pattern, get_pattern_details, process_url, process_youtube), a
required field that is absent, empty or whitespace-only makes the call
return the failure text "<fieldName> is required" with isError = false
(the flag is not set, contrary to the original claim) and with no external
process spawned; validation is performed before any command construction
or execution, as witnessed by the empty spawn trace. -/
theorem blank_required_field_rejected (env : ExecEnv) (fsEnv : FsEnv)
    (s p i m : String) (hs : jsTrim s = "") (hp : ¬ jsTrim p = "") :
    dispatch env fsEnv "execute_pattern"
        ⟨some i, some s, some m, none, none, none⟩ =
      ⟨formatError "pattern_name is required", false, []⟩ ∧
    dispatch env fsEnv "execute_pattern"
        ⟨some s, some p, some m, none, none, none⟩ =
      ⟨formatError "input_text is required", false, []⟩ ∧
    dispatch env fsEnv "execute_pattern" noArgs =
      ⟨formatError "pattern_name is required", false, []⟩ ∧
    dispatch env fsEnv "get_pattern_details"
        ⟨none, some s, none, none, none, none⟩ =
      ⟨formatError "pattern_name is required", false, []⟩ ∧
    dispatch env fsEnv "process_url"
        ⟨none, some p, some m, none, some s, none⟩ =
      ⟨formatError "url is required", false, []⟩ ∧
    dispatch env fsEnv "process_url"
        ⟨none, some s, some m, none, some p, none⟩ =
      ⟨formatError "pattern_name is required", false, []⟩ ∧
    dispatch env fsEnv "process_youtube"
        ⟨none, some p, some m, none, none, some s⟩ =
      ⟨formatError "youtube_url is required", false, []⟩ ∧
    dispatch env fsEnv "process_youtube"
        ⟨none, some s, some m, none, none, some p⟩ =
      ⟨formatError "pattern_name is required", false, []⟩ := by
  have h0 : jsTrim "" = "" := by decide
  refine ⟨?_, ?_, ?_, ?_, ?_, ?_, ?_, ?_⟩ <;>
    simp [dispatch, executePattern, getPatternDetails, processUrl,
      processYoutube, noArgs, orEmpty, validateRequired, formatError,
      hs, hp, h0]

/-- C1 witness: the amended statement at concrete blank and valid fields. -/
theorem blank_required_field_rejected_witness :
    dispatch (okEnv "" "") none "execute_pattern"
        ⟨some "in", some " ", some "", none, none, none⟩ =
      ⟨formatError "pattern_name is required", false, []⟩ ∧
    dispatch (okEnv "" "") none "process_url"
        ⟨none, some "x", some "", none, some " ", none⟩ =
      ⟨formatError "url is required", false, []⟩ :=
  ⟨(blank_required_field_rejected (okEnv "" "") none " " "x" "in" ""
      (by decide) (by decide)).1,
   (blank_required_field_rejected (okEnv "" "") none " " "x" "in" ""
      (by decide) (by decide)).2.2.2.2.1⟩

/-- C2 counterexample: with an empty filesystem listing and a CLI fallback
whose stdout is "b\na", the resolution attempt returns the identifiers
["b", "a"] taken from the CLI source in CLI order, which is not sorted;
the user-visible catalog shows the same unsorted order. -/
theorem fallback_unsorted_cex :
    resolveAttempt (fun _ => ChildBehavior.exits 0 0 "b\na" "" "")
        (some []) = (["b", "a"], false) ∧
    ¬ List.Sorted (fun x y : String => x ≤ y) ["b", "a"] ∧
    (listPatterns (fun _ => ChildBehavior.exits 0 0 "b\na" "" "")
        (some []) "").1 = "📋 Available Patterns (2):\n\nb\na" := by
  refine ⟨by decide, ?_, by decide⟩
  intro hsort
  have hle := (List.sorted_cons.mp hsort).1 "a" (by simp)
  have hlt : ("a" : String) < "b" := by
    rw [String.lt_iff_toList_lt]
    decide
  exact absurd hle (not_le.mpr hlt)

/-- C2 amended: a resolution attempt never mixes the two sources — when
the filesystem yields a nonempty list that sorted list is returned as-is
and the CLI is not consulted, and otherwise only the CLI fallback's
blank-filtered output lines are returned, in CLI order (which, contrary to
the original claim, need not be sorted). -/
theorem resolution_single_source (env : ExecEnv) (fsEnv : FsEnv) :
    ((resolveAttempt env fsEnv).2 = true →
      (resolveAttempt env fsEnv).1 = listPatternsFromFileSystem fsEnv ∧
      List.Sorted (fun x y : String => x ≤ y) (resolveAttempt env fsEnv).1 ∧
      (resolveAttempt env fsEnv).1 ≠ []) ∧
    ((resolveAttempt env fsEnv).2 = false →
      listPatternsFromFileSystem fsEnv = [] ∧
      (resolveAttempt env fsEnv).1 = cliLines env) := by
  by_cases h : (listPatternsFromFileSystem fsEnv).length = 0
  · refine ⟨fun ht => absurd ht ?_, fun _ => ⟨List.length_eq_zero.mp h, ?_⟩⟩
    · simp [resolveAttempt, h]
    · simp [resolveAttempt, h]
  · refine ⟨fun _ => ⟨?_, ?_, ?_⟩, fun hf => absurd hf ?_⟩
    · simp [resolveAttempt, h]
    · simp only [resolveAttempt, h, if_neg]
      exact listPatternsFromFileSystem_sorted fsEnv
    · simp [resolveAttempt, h, ← List.length_eq_zero]
    · simp [resolveAttempt, h]

/-- C2 witness: a one-directory filesystem listing resolves from the
filesystem source, sorted and nonempty. -/
theorem resolution_single_source_witness :
    (resolveAttempt failEnv (some [⟨"p1", true⟩])).1 =
      listPatternsFromFileSystem (some [⟨"p1", true⟩]) ∧
    List.Sorted (fun x y : String => x ≤ y)
      (resolveAttempt failEnv (some [⟨"p1", true⟩])).1 ∧
    (resolveAttempt failEnv (some [⟨"p1", true⟩])).1 ≠ [] :=
  (resolution_single_source failEnv (some [⟨"p1", true⟩])).1 (by decide)

/-- C4: when the filesystem source yields zero entries, list_patterns
invokes the CLI fallback exactly once (the spawn trace is the single
listpatterns call); the fallback stdout is parsed as newline-delimited
identifiers with blank lines discarded; a fallback with zero remaining
entries yields the distinct non-error empty-catalog message for a
non-empty versus an empty search term; a failing fallback yields the
non-error not-configured message; and the dispatched call never has
isError = true. -/
theorem fallback_invoked_once (env : ExecEnv) (fsEnv : FsEnv)
    (search : String) (hfs : listPatternsFromFileSystem fsEnv = []) :
    (listPatterns env fsEnv search).2 =
      [⟨cliListCommand, 5000, 1048576⟩] ∧
    (∀ e, (execWithTimeout (env cliListCommand) 5000).result =
        Except.error e →
      (listPatterns env fsEnv search).1 =
        "❌ No patterns available. Fabric may not be properly configured.") ∧
    (∀ stdout err,
      (execWithTimeout (env cliListCommand) 5000).result =
        Except.ok (stdout, err) →
      ((splitOnNewline stdout).filter keepLine).filter (searchPred search)
          = [] →
      (listPatterns env fsEnv search).1 =
        (if search == "" then "❌ No patterns available"
         else "❌ No patterns found matching: " ++ search)) ∧
    (∀ stdout err,
      (execWithTimeout (env cliListCommand) 5000).result =
        Except.ok (stdout, err) →
      ((splitOnNewline stdout).filter keepLine).filter (searchPred search)
          ≠ [] →
      (listPatterns env fsEnv search).1 =
        "📋 Available Patterns (" ++
          toString (((splitOnNewline stdout).filter keepLine).filter
            (searchPred search)).length ++ "):\n\n" ++
          joinWith "\n" (((splitOnNewline stdout).filter keepLine).filter
            (searchPred search))) ∧
    (∀ args, (dispatch env fsEnv "list_patterns" args).isError = false) := by
  have hlen : (listPatternsFromFileSystem fsEnv).length = 0 := by
    rw [hfs]; rfl
  refine ⟨?_, ?_, ?_, ?_, fun args => rfl⟩
  · rcases h : (execWithTimeout (env cliListCommand) 5000).result
      with e | ⟨stdout, err⟩
    · simp only [listPatterns, hlen, if_pos, h]
    · simp only [listPatterns, hlen, if_pos, h]
      split <;> rfl
  · intro e he
    simp [listPatterns, hlen, he]
  · intro stdout err hok hempty
    simp [listPatterns, hlen, hok, hempty]
  · intro stdout err hok hne
    have hlen2 : ¬ (((splitOnNewline stdout).filter keepLine).filter
        (searchPred search)).length = 0 := by
      simpa [List.length_eq_zero] using hne
    simp only [listPatterns]
    rw [if_pos hlen, hok]
    dsimp only
    rw [if_neg hlen2]

/-- C4 witness: with a failed filesystem read, an empty-output fallback
reports "No patterns available" and a failing fallback reports the
not-configured message; both spawn the CLI exactly once. -/
theorem fallback_invoked_once_witness :
    (listPatterns (okEnv "" "") none "").2 =
      [⟨cliListCommand, 5000, 1048576⟩] ∧
    (listPatterns (okEnv "" "") none "").1 = "❌ No patterns available" ∧
    (listPatterns failEnv none "").1 =
      "❌ No patterns available. Fabric may not be properly configured." := by
  refine ⟨(fallback_invoked_once (okEnv "" "") none "" rfl).1, ?_, ?_⟩
  · have h := (fallback_invoked_once (okEnv "" "") none "" rfl).2.2.1
      "" "" (by decide) (by decide)
    simpa using h
  · exact (fallback_invoked_once failEnv none "" rfl).2.1
      (timeoutMessage 5000) (by decide)

/-- C5: the search filter keeps exactly the entries whose lowercased name
contains the lowercased search term, applied to whichever source actually
produced the resolution; for a non-empty term the predicate is exactly
case-insensitive substring containment; Extract_Wisdom matches "wisdom";
and a non-empty filtered list is precisely what the returned catalog text
displays. -/
theorem search_filter_semantics (env : ExecEnv) (fsEnv : FsEnv)
    (search : String) :
    (∀ p : String, p ∈ filteredPatterns env fsEnv search ↔
      p ∈ (resolveAttempt env fsEnv).1 ∧ searchPred search p = true) ∧
    (¬ search = "" → ∀ p : String,
      searchPred search p = strIncludes (jsToLower p) (jsToLower search)) ∧
    searchPred "wisdom" "Extract_Wisdom" = true ∧
    (filteredPatterns env fsEnv search ≠ [] →
      (listPatterns env fsEnv search).1 =
        "📋 Available Patterns (" ++
          toString (filteredPatterns env fsEnv search).length ++ "):\n\n" ++
          joinWith "\n" (filteredPatterns env fsEnv search)) := by
  refine ⟨fun p => by simp [filteredPatterns, List.mem_filter], ?_, by decide,
    ?_⟩
  · intro hne p
    have hb : (search == "") = false := by simpa using hne
    simp [searchPred, hb]
  · intro hne
    by_cases hlen : (listPatternsFromFileSystem fsEnv).length = 0
    · rcases h : (execWithTimeout (env cliListCommand) 5000).result
        with e | ⟨stdout, err⟩
      · exfalso
        exact hne (by simp [filteredPatterns, resolveAttempt, cliLines,
          hlen, h])
      · have hfp : filteredPatterns env fsEnv search =
            ((splitOnNewline stdout).filter keepLine).filter
              (searchPred search) := by
          simp [filteredPatterns, resolveAttempt, cliLines, hlen, h]
        rw [hfp] at hne ⊢
        have hlen2 : ¬ (((splitOnNewline stdout).filter keepLine).filter
            (searchPred search)).length = 0 := by
          simpa [List.length_eq_zero] using hne
        simp only [listPatterns]
        rw [if_pos hlen, h]
        try dsimp only
        rw [if_neg hlen2]
    · have hfp : filteredPatterns env fsEnv search =
          (listPatternsFromFileSystem fsEnv).filter (searchPred search) := by
        simp [filteredPatterns, resolveAttempt, hlen]
      rw [hfp] at hne ⊢
      have hlen2 : ¬ ((listPatternsFromFileSystem fsEnv).filter
          (searchPred search)).length = 0 := by
        simpa [List.length_eq_zero] using hne
      simp only [listPatterns]
      rw [if_neg hlen]
      try dsimp only
      rw [if_neg hlen2]

/-- C5 witness: a filesystem catalog holding Extract_Wisdom filtered by
"wisdom" keeps that entry and displays exactly it. -/
theorem search_filter_semantics_witness :
    ("Extract_Wisdom" ∈
        filteredPatterns failEnv (some [⟨"Extract_Wisdom", true⟩]) "wisdom" ↔
      "Extract_Wisdom" ∈
        (resolveAttempt failEnv (some [⟨"Extract_Wisdom", true⟩])).1 ∧
      searchPred "wisdom" "Extract_Wisdom" = true) ∧
    searchPred "wisdom" "Extract_Wisdom" = true ∧
    (listPatterns failEnv (some [⟨"Extract_Wisdom", true⟩]) "wisdom").1 =
      "📋 Available Patterns (" ++
        toString (filteredPatterns failEnv
          (some [⟨"Extract_Wisdom", true⟩]) "wisdom").length ++ "):\n\n" ++
        joinWith "\n" (filteredPatterns failEnv
          (some [⟨"Extract_Wisdom", true⟩]) "wisdom") :=
  ⟨(search_filter_semantics failEnv (some [⟨"Extract_Wisdom", true⟩])
      "wisdom").1 "Extract_Wisdom",
   (search_filter_semantics failEnv (some [⟨"Extract_Wisdom", true⟩])
      "wisdom").2.2.1,
   (search_filter_semantics failEnv (some [⟨"Extract_Wisdom", true⟩])
      "wisdom").2.2.2 (by decide)⟩

/-- C8: a child that exits with status 0 never fails the call, whatever
its stderr: each execWithTimeout-based operation returns its
success-marked text built from stdout alone (stderr is only logged), the
models listing shows its stdout, getPatternDetails with non-empty stdout
shows the success-marked detail text, and the dispatched execute_pattern
call has isError = false. The stderr stream is universally quantified, so
in particular every non-empty stderr leaves the success result intact. -/
theorem stderr_on_success_not_error (env : ExecEnv) (fsEnv : FsEnv)
    (i p m u y stdout stderr : String) (t : Nat)
    (henv : ∀ c, env c = ChildBehavior.exits t 0 stdout stderr "")
    (ht : t ≤ 5000)
    (hi : ¬ jsTrim i = "") (hp : ¬ jsTrim p = "")
    (hu : ¬ jsTrim u = "") (hy : ¬ jsTrim y = "") :
    (executePattern env i p m).1 = "✅ Pattern Result:\n\n" ++ stdout ∧
    (processUrl env u p m).1 = "✅ URL Processing Result:\n\n" ++ stdout ∧
    (processYoutube env y p m).1 =
      "✅ YouTube Processing Result:\n\n" ++ stdout ∧
    (updatePatterns env).1 = "✅ Patterns Updated:\n\n" ++ stdout ∧
    (listModels env).1 = "📋 Available Models:\n\n" ++ stdout ∧
    (¬ stdout = "" → (getPatternDetails env p).1 =
      "📄 Pattern Details: " ++ jsTrim p ++ "\n\n" ++ stdout) ∧
    (∀ args, (dispatch env fsEnv "execute_pattern" args).isError = false) := by
  have ht60 : t ≤ 60000 := by omega
  have ht120 : t ≤ 120000 := by omega
  have ht180 : t ≤ 180000 := by omega
  have h60 : ∀ c, (execWithTimeout (env c) 60000).result =
      Except.ok (stdout, stderr) := fun c => by
    rw [henv c]
    simp [execWithTimeout, ht60]
  have h120 : ∀ c, (execWithTimeout (env c) 120000).result =
      Except.ok (stdout, stderr) := fun c => by
    rw [henv c]
    simp [execWithTimeout, ht120]
  have h180 : ∀ c, (execWithTimeout (env c) 180000).result =
      Except.ok (stdout, stderr) := fun c => by
    rw [henv c]
    simp [execWithTimeout, ht180]
  have h5000 : ∀ c, (execWithTimeout (env c) 5000).result =
      Except.ok (stdout, stderr) := fun c => by
    rw [henv c]
    simp [execWithTimeout, ht]
  refine ⟨?_, ?_, ?_, ?_, ?_, ?_, fun args => rfl⟩
  · simp [executePattern, validateRequired, hi, hp, h60]
  · simp [processUrl, validateRequired, hu, hp, h120]
  · simp [processYoutube, validateRequired, hy, hp, h180]
  · simp [updatePatterns, h60]
  · simp [listModels, h5000]
  · intro hso
    have hex : execAsyncTimed (env (getPatternDetailsCommand (jsTrim p)))
        5000 = Except.ok (stdout, stderr) := by
      rw [henv]
      simp [execAsyncTimed, ht]
    have hsb : (stdout == "") = false := by simpa using hso
    simp [getPatternDetails, validateRequired, hp, hex, hsb]

/-- C8 witness: with stdout OUT and non-empty stderr WARN the pattern
execution and update succeed with the stdout-built texts. -/
theorem stderr_on_success_not_error_witness :
    (executePattern (okEnv "OUT" "WARN") "a" "b" "").1 =
      "✅ Pattern Result:\n\n" ++ "OUT" ∧
    (updatePatterns (okEnv "OUT" "WARN")).1 =
      "✅ Patterns Updated:\n\n" ++ "OUT" :=
  ⟨(stderr_on_success_not_error (okEnv "OUT" "WARN") none "a" "b" "" "c" "d"
      "OUT" "WARN" 0 (fun _ => rfl) (by norm_num) (by decide) (by decide)
      (by decide) (by decide)).1,
   (stderr_on_success_not_error (okEnv "OUT" "WARN") none "a" "b" "" "c" "d"
      "OUT" "WARN" 0 (fun _ => rfl) (by norm_num) (by decide) (by decide)
      (by decide) (by decide)).2.2.2.1⟩

/-- C3 counterexample: get_pattern_details spawns through the bare exec
primitive, so when its child runs for 6000ms against the 5000ms budget the
call fails with the primitive's own error message and not with
"Command timed out after 5000ms" as the claim requires for every
operation. -/
theorem patternDetails_timeout_message_cex :
    (getPatternDetails
      (fun _ => ChildBehavior.exits 6000 0 "sys" ""
        "Command failed: fabric-ai --pattern summarize --help")
      "summarize").1 =
      "❌ Error: Command failed: fabric-ai --pattern summarize --help" ∧
    (getPatternDetails
      (fun _ => ChildBehavior.exits 6000 0 "sys" ""
        "Command failed: fabric-ai --pattern summarize --help")
      "summarize").1 ≠ formatError (timeoutMessage 5000) :=
  ⟨by decide, by decide⟩

/-- C3 amended: every operation that spawns through execWithTimeout is
protected by the dual mechanism — when the child outlives timeoutMs the
call fails with "Command timed out after <timeoutMs>ms", settles no later
than timeoutMs + 1000, and no safety timer is left armed once the call
settles (the exit handler clears it, or it has already fired); in
particular execute_pattern then reports formatError of that message.
get_pattern_details is the exception: it spawns through the bare exec
primitive, whose own timeout terminates the child but reports the
primitive's error message, with no safety timer to arm or clear. -/
theorem dual_timeout_mechanism (b : ChildBehavior) (timeoutMs : Nat)
    (h : runsLongerThan b timeoutMs) :
    (execWithTimeout b timeoutMs).result =
      Except.error (timeoutMessage timeoutMs) ∧
    (execWithTimeout b timeoutMs).settleTime ≤ timeoutMs + 1000 ∧
    (execWithTimeout b timeoutMs).timerDangling = false ∧
    (∀ env : ExecEnv, ∀ i p m : String, ¬ jsTrim i = "" → ¬ jsTrim p = "" →
      runsLongerThan (env (executePatternCommand (jsTrim i) (jsTrim p) m))
        60000 →
      (executePattern env i p m).1 = formatError (timeoutMessage 60000)) := by
  refine ⟨execWithTimeout_long_result b timeoutMs h, ?_, ?_, ?_⟩
  · cases b with
    | exits t code stdout stderr errMsg =>
      have ht : ¬ t ≤ timeoutMs := Nat.not_le.mpr h
      simp [execWithTimeout, ht]
    | hangs r msg => cases r <;> simp [execWithTimeout]
  · cases b with
    | exits t code stdout stderr errMsg =>
      have ht : ¬ t ≤ timeoutMs := Nat.not_le.mpr h
      simp [execWithTimeout, ht]
    | hangs r msg => cases r <;> simp [execWithTimeout]
  · intro env i p m hi hp hlong
    have hcmd := execWithTimeout_long_result _ 60000 hlong
    simp [executePattern, validateRequired, hi, hp, hcmd]

/-- C3 witness: a SIGTERM-ignoring child against a 5000ms budget, and a
concrete execute_pattern call against a hanging child. -/
theorem dual_timeout_mechanism_witness :
    (execWithTimeout (ChildBehavior.hangs false "x") 5000).result =
      Except.error (timeoutMessage 5000) ∧
    (execWithTimeout (ChildBehavior.hangs false "x") 5000).settleTime ≤
      5000 + 1000 ∧
    (execWithTimeout (ChildBehavior.hangs false "x") 5000).timerDangling =
      false ∧
    (executePattern (fun _ => ChildBehavior.hangs false "x")
      "in" "pat" "").1 = formatError (timeoutMessage 60000) := by
  have h := dual_timeout_mechanism (ChildBehavior.hangs false "x") 5000
    trivial
  exact ⟨h.1, h.2.1, h.2.2.1, h.2.2.2 (fun _ => ChildBehavior.hangs false "x")
    "in" "pat" "" (by decide) (by decide) trivial⟩

end FabricMCP
